import Mathlib

/-!
Shallow embedding of the VisionX legal-document assistant core:
the Gemini analysis client (`analyzeDocument`, `getAiClient`, `resolveApiKey`
from the Gemini service module) and the PDF password pipeline
(`isPasswordProtected`, `convertPdfToImages` from the PDF handler module).

Text is modelled as `List Char` wherever the source applies JavaScript
string primitives (`trim`, `replace`, `includes`, `toLowerCase`), each of
which is given an explicit executable model below.  The remote provider,
the PDF rendering library and the JSON platform parser are collaborators:
the provider is a function from the attempt index to its outcome, the PDF
library is a function from the page number to a page outcome, and
`JSON.parse` is modelled by an executable fuel-based JSON parser.
-/

namespace VisionX

/-! ## Character and list-of-characters primitives -/

/-- Whitespace test used by the models of JavaScript `trim` and of the
regex class in the fence-stripping replacement. -/
def isWsChar (c : Char) : Bool :=
  c == ' ' || c == '\n' || c == '\t' || c == '\r'

/-- Model of JavaScript `String.prototype.trim` on a character list. -/
def trimWs (cs : List Char) : List Char :=
  ((cs.dropWhile isWsChar).reverse.dropWhile isWsChar).reverse

/-- Does `cs` start with `pat`?  Executable model of a position-0 match. -/
def startsWith : List Char → List Char → Bool
  | _, [] => true
  | [], _ :: _ => false
  | c :: cs, p :: ps => c == p && startsWith cs ps

/-- Does `cs` end with `pat`? -/
def endsWith (cs pat : List Char) : Bool :=
  startsWith cs.reverse pat.reverse

/-- Model of JavaScript `String.prototype.includes` (substring search). -/
def hasSubL : List Char → List Char → Bool
  | [], pat => startsWith [] pat
  | c :: t, pat => startsWith (c :: t) pat || hasSubL t pat

/-- Substring search on whole strings (case-sensitive `includes`). -/
def hasSub (s pat : String) : Bool :=
  hasSubL s.data pat.data

/-- Model of JavaScript `String.prototype.toLowerCase` into a char list. -/
def lowerL (s : String) : List Char :=
  s.data.map Char.toLower

/-- Declarative substring containment, used on the specification side. -/
def containsSub (cs pat : List Char) : Prop :=
  ∃ l r, cs = l ++ pat ++ r

/-! ## JSON model

An executable model of the platform `JSON.parse`.  Numeric lexemes are
kept raw (uninterpreted), which is enough for every property below: no
claim inspects numeric values. -/

inductive Json where
  | null : Json
  | bool : Bool → Json
  | num : String → Json
  | str : String → Json
  | arr : List Json → Json
  | obj : List (String × Json) → Json
deriving Repr

/-- The double-quote character. -/
def quoteChar : Char := Char.ofNat 34

/-- The backslash character. -/
def backslashChar : Char := Char.ofNat 92

/-- Hexadecimal digit value, for the \uXXXX escape. -/
def hexVal (c : Char) : Option Nat :=
  if c.isDigit then some (c.toNat - 48)
  else if 'a' ≤ c ∧ c ≤ 'f' then some (c.toNat - 87)
  else if 'A' ≤ c ∧ c ≤ 'F' then some (c.toNat - 55)
  else none

/-- Prepend a character to the first component of a string-parser result. -/
def consFst (c : Char) : Option (List Char × List Char) → Option (List Char × List Char)
  | some (s, r) => some (c :: s, r)
  | none => none

/-- Parse the body of a JSON string after the opening quote; returns the
decoded content and the input after the closing quote. -/
def parseStrBody : Nat → List Char → Option (List Char × List Char)
  | 0, _ => none
  | _ + 1, [] => none
  | fuel + 1, c :: rest =>
    if c == quoteChar then some ([], rest)
    else if c == backslashChar then
      match rest with
      | [] => none
      | e :: rest2 =>
        if e == quoteChar then consFst quoteChar (parseStrBody fuel rest2)
        else if e == backslashChar then consFst backslashChar (parseStrBody fuel rest2)
        else if e == '/' then consFst '/' (parseStrBody fuel rest2)
        else if e == 'b' then consFst (Char.ofNat 8) (parseStrBody fuel rest2)
        else if e == 'f' then consFst (Char.ofNat 12) (parseStrBody fuel rest2)
        else if e == 'n' then consFst '\n' (parseStrBody fuel rest2)
        else if e == 'r' then consFst '\r' (parseStrBody fuel rest2)
        else if e == 't' then consFst '\t' (parseStrBody fuel rest2)
        else if e == 'u' then
          match rest2 with
          | h1 :: h2 :: h3 :: h4 :: rest3 =>
            match hexVal h1, hexVal h2, hexVal h3, hexVal h4 with
            | some a, some b, some c3, some d =>
              consFst (Char.ofNat (((a * 16 + b) * 16 + c3) * 16 + d)) (parseStrBody fuel rest3)
            | _, _, _, _ => none
          | _ => none
        else none
    else consFst c (parseStrBody fuel rest)

/-- Characters that may occur in a JSON numeric lexeme. -/
def isNumChar (c : Char) : Bool :=
  c.isDigit || c == '.' || c == 'e' || c == 'E' || c == '+' || c == '-'

/-- Skip whitespace. -/
def skipWs (cs : List Char) : List Char :=
  cs.dropWhile isWsChar

mutual

/-- Parse one JSON value, returning it and the remaining input. -/
def parseVal : Nat → List Char → Option (Json × List Char)
  | 0, _ => none
  | fuel + 1, cs =>
    match skipWs cs with
    | 'n' :: 'u' :: 'l' :: 'l' :: r => some (.null, r)
    | 't' :: 'r' :: 'u' :: 'e' :: r => some (.bool true, r)
    | 'f' :: 'a' :: 'l' :: 's' :: 'e' :: r => some (.bool false, r)
    | c :: r =>
      if c == quoteChar then
        match parseStrBody fuel r with
        | some (s, r1) => some (.str ⟨s⟩, r1)
        | none => none
      else if c == '[' then
        match skipWs r with
        | ']' :: r2 => some (.arr [], r2)
        | _ => match parseItems fuel r with
          | some (vs, r2) => some (.arr vs, r2)
          | none => none
      else if c == '\x7b' then
        match skipWs r with
        | '\x7d' :: r2 => some (.obj [], r2)
        | _ => match parseFields fuel r with
          | some (fs, r2) => some (.obj fs, r2)
          | none => none
      else if c.isDigit || c == '-' then
        some (.num ⟨(c :: r).takeWhile isNumChar⟩, (c :: r).dropWhile isNumChar)
      else none
    | [] => none

/-- Parse the items of a non-empty JSON array up to the closing bracket. -/
def parseItems : Nat → List Char → Option (List Json × List Char)
  | 0, _ => none
  | fuel + 1, cs =>
    match parseVal fuel cs with
    | none => none
    | some (v, r) =>
      match skipWs r with
      | ',' :: r2 =>
        match parseItems fuel r2 with
        | some (vs, r3) => some (v :: vs, r3)
        | none => none
      | ']' :: r2 => some ([v], r2)
      | _ => none

/-- Parse the fields of a non-empty JSON object up to the closing brace. -/
def parseFields : Nat → List Char → Option (List (String × Json) × List Char)
  | 0, _ => none
  | fuel + 1, cs =>
    match skipWs cs with
    | c :: r =>
      if c == quoteChar then
        match parseStrBody fuel r with
        | none => none
        | some (k, r1) =>
          match skipWs r1 with
          | ':' :: r2 =>
            match parseVal fuel r2 with
            | none => none
            | some (v, r3) =>
              match skipWs r3 with
              | ',' :: r4 =>
                match parseFields fuel r4 with
                | some (fs, r5) => some ((⟨k⟩, v) :: fs, r5)
                | none => none
              | '\x7d' :: r4 => some ([(⟨k⟩, v)], r4)
              | _ => none
          | _ => none
      else none
    | [] => none

end

/-- Model of `JSON.parse`: parse one value and require only trailing
whitespace after it. -/
def jsonParse (cs : List Char) : Option Json :=
  match parseVal (2 * cs.length + 8) cs with
  | some (v, rest) => if skipWs rest = [] then some v else none
  | none => none

/-- Last-occurrence field lookup (later duplicate keys win, as in
JavaScript object construction). -/
def getField (fields : List (String × Json)) (key : String) : Option Json :=
  (fields.reverse.find? (fun p => p.1 == key)).map (fun p => p.2)

/-- Is this JSON value a string? -/
def isStrJson : Json → Bool
  | .str _ => true
  | _ => false

/-- Is this JSON value an array of strings? -/
def isStrArrJson : Json → Bool
  | .arr xs => xs.all isStrJson
  | _ => false

/-- The `AnalysisResult` shape from the repository type declarations:
required string `summary`, four required string arrays, optional boolean
`isLegal`, optional `authenticity` among real, fake, unknown. -/
def validAnalysisResult (j : Json) : Bool :=
  match j with
  | .obj fs =>
    (match getField fs "summary" with
     | some v => isStrJson v
     | none => false) &&
    (match getField fs "pros" with
     | some v => isStrArrJson v
     | none => false) &&
    (match getField fs "cons" with
     | some v => isStrArrJson v
     | none => false) &&
    (match getField fs "potentialLoopholes" with
     | some v => isStrArrJson v
     | none => false) &&
    (match getField fs "potentialChallenges" with
     | some v => isStrArrJson v
     | none => false) &&
    (match getField fs "isLegal" with
     | none => true
     | some (.bool _) => true
     | some _ => false) &&
    (match getField fs "authenticity" with
     | none => true
     | some (.str s) => s == "real" || s == "fake" || s == "unknown"
     | some _ => false)
  | _ => false

/-! ## Credential resolution (`resolveApiKey`, `getAiClient`)

The three candidate credential sources (the Vite environment variable,
the window-scoped key, the localStorage fallback) are passed explicitly;
`none` models an absent source. -/

/-- Model of the JavaScript `trim` on whole strings. -/
def jsTrim (s : String) : String :=
  ⟨trimWs s.data⟩

/-- One step of the credential cascade: a source is accepted when it is
present and trims to a non-empty string, yielding the trimmed key. -/
def nonEmptyKey : Option String → Option String
  | some k => if jsTrim k = "" then none else some (jsTrim k)
  | none => none

/-- A credential source that cannot contribute a key: absent, or present
but trimming to the empty string. -/
def noCred (o : Option String) : Prop :=
  ∀ k, o = some k → jsTrim k = ""

/-- Model of `resolveApiKey`: first the Vite key, then the window key,
then the stored key; failures fall through, all-failed gives `none`. -/
def resolveApiKey (viteKey windowKey storedKey : Option String) : Option String :=
  match nonEmptyKey viteKey with
  | some k => some k
  | none =>
    match nonEmptyKey windowKey with
    | some k => some k
    | none => nonEmptyKey storedKey

/-- Error message thrown by `getAiClient` when no credential resolves. -/
def serviceUnavailableMsg : String := "SERVICE_UNAVAILABLE"

/-- Model of `getAiClient`: throws the generic SERVICE_UNAVAILABLE error
when no credential resolves; client caching is irrelevant to the claims
and is not modelled. -/
def getAiClient (viteKey windowKey storedKey : Option String) : Except String Unit :=
  match resolveApiKey viteKey windowKey storedKey with
  | none => .error serviceUnavailableMsg
  | some _ => .ok ()

/-! ## The analysis client (`analyzeDocument`) -/

/-- An input file as the analysis client sees it: name, byte size,
declared MIME type and base64 payload. -/
structure GenFile where
  name : String
  size : Nat
  mimeType : String
  data : String

/-- A request part produced by `fileToGenerativePart`. -/
structure GenPart where
  inlineData : Option (String × String)

/-- Model of `fileToGenerativePart`: wraps the base64 payload and the
declared MIME type as an inline-data part. -/
def fileToGenerativePart (f : GenFile) : GenPart :=
  ⟨some (f.data, f.mimeType)⟩

/-- Outcome of one provider call (`ai.models.generateContent`): either a
thrown error carrying a message, or a response carrying its text (an
absent text field behaves as the empty string). -/
inductive AttemptResult where
  | throwErr (msg : String)
  | respond (text : String)

/-- The provider collaborator: the outcome of attempt `i`. -/
abbrev Provider := Nat → AttemptResult

/-- Model of the `isRateLimited` predicate, the case-insensitive regex
quota, rate, 429, resource exhausted tested against the message. -/
def isRateLimited (msg : String) : Bool :=
  hasSubL (lowerL msg) "quota".data || hasSubL (lowerL msg) "rate".data ||
  hasSubL (lowerL msg) "429".data || hasSubL (lowerL msg) "resource exhausted".data

/-- The opening fence deleted by the anchored replacement. -/
def fenceOpen : List Char := "```json".data

/-- The closing fence deleted by the anchored replacement. -/
def fenceClose : List Char := "```".data

/-- Model of the fence-stripping replacement: the first regex alternative
deletes a leading three-backtick json marker together with the following
whitespace run, the second deletes a trailing three-backtick marker. -/
def cleanFence (cs : List Char) : List Char :=
  let cs1 := if startsWith cs fenceOpen then (cs.drop fenceOpen.length).dropWhile isWsChar else cs
  if endsWith cs1 fenceClose then cs1.take (cs1.length - fenceClose.length) else cs1

/-- Message of the platform syntax error raised by a failed `JSON.parse`;
its exact wording never matters below (it matches no classifier). -/
def jsonParseErrMsg : String := "Unexpected token in JSON"

/-- One iteration of the try-block body: call the provider, trim the
response text, fail on an empty text, strip fences and parse as JSON. -/
def attemptOutcome (provider : Provider) (i : Nat) : Except String Json :=
  match provider i with
  | .throwErr m => .error m
  | .respond t =>
    let jsonText := trimWs t.data
    if jsonText = [] then .error "Empty response from AI model."
    else
      match jsonParse (cleanFence jsonText) with
      | some j => .ok j
      | none => .error jsonParseErrMsg

/-- Result of a whole `analyzeDocument` invocation: the returned value or
thrown message, the number of provider calls made, and the backoff sleeps
performed, in milliseconds and in order. -/
structure AnalyzeOutcome where
  result : Except String Json
  calls : Nat
  sleeps : List Nat

/-- The retry loop over attempts 0, 1, 2: a success returns, a failure
matching the rate-limit pattern before the last attempt sleeps
1000 * 2 ^ attempt milliseconds and retries, any other failure is
rethrown; the fuel only bounds the recursion and is never exhausted when
the loop is entered with fuel 4. -/
def analyzeLoop (provider : Provider) :
    Nat → Nat → Nat → List Nat → Option String → AnalyzeOutcome
  | 0, _, calls, sleeps, lastErr =>
    ⟨.error (lastErr.getD "Unknown error"), calls, sleeps⟩
  | fuel + 1, attempt, calls, sleeps, lastErr =>
    if attempt < 3 then
      match attemptOutcome provider attempt with
      | .ok j => ⟨.ok j, calls + 1, sleeps⟩
      | .error m =>
        if isRateLimited m = true ∧ attempt < 2 then
          analyzeLoop provider fuel (attempt + 1) (calls + 1)
            (sleeps ++ [1000 * 2 ^ attempt]) (some m)
        else ⟨.error m, calls + 1, sleeps⟩
    else ⟨.error (lastErr.getD "Unknown error"), calls, sleeps⟩

/-- The try-block of `analyzeDocument`: input validation, part building,
then the retry loop. -/
def analyzeBody (files : List GenFile) (provider : Provider) : AnalyzeOutcome :=
  if files.length = 0 then
    ⟨.error "No files provided for analysis", 0, []⟩
  else if files.any (fun f => f.size == 0) then
    ⟨.error "One or more files are empty or invalid", 0, []⟩
  else
    let fileParts := files.map fileToGenerativePart
    if fileParts.length = 0 ∨ fileParts.any (fun p => p.inlineData.isNone) = true then
      ⟨.error "Failed to process files for analysis", 0, []⟩
    else analyzeLoop provider 4 0 0 [] none

/-- User-facing message for exhausted quota (the RateLimited condition). -/
def rateLimitedMsg : String :=
  "Model quota/rate limit reached. Retried automatically; please try again in a moment or adjust your quota."

/-- User-facing message for a rejected MIME type. -/
def unsupportedMsg : String :=
  "Unsupported file type. Please upload PDF, DOCX, PNG, or JPG."

/-- User-facing message for a response shaped like an unreadable source. -/
def pwProtectedMsg : String :=
  "The document appears to be password-protected or corrupted. If this is an Aadhaar PDF, please enter the password when prompted."

/-- User-facing catch-all failure message (the AnalysisFailed condition). -/
def analysisFailedMsg : String :=
  "Failed to analyze the document. The AI model could not process the request. Please ensure you\x27ve uploaded a clear document (PDF, DOCX, PNG, JPG)."

/-- The outer catch-block of `analyzeDocument`: substring classification
of the thrown message into the surfaced error taxonomy. -/
def mapError (message : String) : String :=
  if hasSub message "API key" || hasSub message "Missing API key" then
    serviceUnavailableMsg
  else if hasSubL (lowerL message) "quota".data || hasSubL (lowerL message) "rate".data
      || hasSub message "429" then
    rateLimitedMsg
  else if hasSubL (lowerL message) "unsupported".data || hasSubL (lowerL message) "mime".data then
    unsupportedMsg
  else if hasSub message "no pages" || hasSub message "document has no pages" then
    pwProtectedMsg
  else analysisFailedMsg

/-- Model of `analyzeDocument`.  `getAiClient` runs before the try-block,
so its SERVICE_UNAVAILABLE error propagates unmapped; every error thrown
inside the try-block is classified by the catch-block `mapError`. -/
def analyzeDocument (viteKey windowKey storedKey : Option String)
    (files : List GenFile) (provider : Provider) : AnalyzeOutcome :=
  match getAiClient viteKey windowKey storedKey with
  | .error e => ⟨.error e, 0, []⟩
  | .ok _ =>
    let o := analyzeBody files provider
    match o.result with
    | .ok j => ⟨.ok j, o.calls, o.sleeps⟩
    | .error m => ⟨.error (mapError m), o.calls, o.sleeps⟩

/-! ## PDF password pipeline (`isPasswordProtected`, `convertPdfToImages`)

The PDF library is a collaborator.  A thrown library error carries a
name, a message and a code field. -/

/-- A thrown JavaScript error, as inspected by the PDF handlers. -/
structure JsErr where
  name : String
  message : String
  code : String
deriving DecidableEq

/-- Behaviour of the library probe made by `isPasswordProtected` on one
file: document and first page load fine, first-page access throws,
document loading throws, or an outer failure (such as reading the file
into a buffer) occurs. -/
inductive ProbeOutcome where
  | pageOk
  | pageErr (e : JsErr)
  | loadErr (e : JsErr)
  | outerErr

/-- Model of `isPasswordProtected`: a total boolean classification, since
the source wraps every step in catch-alls and never rethrows. -/
def isPasswordProtected : ProbeOutcome → Bool
  | .pageOk => false
  | .pageErr e =>
    e.name == "PasswordException" || e.name == "PasswordResponses" ||
    hasSubL (lowerL e.message) "password".data ||
    hasSubL (lowerL e.message) "encrypted".data ||
    hasSubL (lowerL e.message) "needs password".data ||
    hasSubL (lowerL e.message) "password required".data
  | .loadErr e =>
    e.name == "PasswordException" || e.name == "PasswordResponses" ||
    e.code == "PasswordException" ||
    hasSubL (lowerL e.message) "password".data ||
    hasSubL (lowerL e.message) "encrypted".data ||
    hasSubL (lowerL e.message) "needs password".data ||
    hasSubL (lowerL e.message) "password required".data ||
    hasSubL (lowerL e.message) "incorrect password".data
  | .outerErr => false

/-- Specification-side classification of a password-protected signal: a
recognised error name or code, or a message containing the word password
or the word encrypted (case-insensitively). -/
def pwClassified : ProbeOutcome → Prop
  | .pageOk => False
  | .pageErr e =>
    e.name = "PasswordException" ∨ e.name = "PasswordResponses" ∨
    containsSub (lowerL e.message) "password".data ∨
    containsSub (lowerL e.message) "encrypted".data
  | .loadErr e =>
    e.name = "PasswordException" ∨ e.name = "PasswordResponses" ∨
    e.code = "PasswordException" ∨
    containsSub (lowerL e.message) "password".data ∨
    containsSub (lowerL e.message) "encrypted".data
  | .outerErr => False

/-- Per-page behaviour of the rendering collaborator inside the
conversion loop: the page fetch or render throws, the canvas context is
unavailable, the blob encoder yields null, or a blob of a given size. -/
inductive PageOutcome where
  | throwErr (e : JsErr)
  | noContext
  | blobNone
  | blob (size : Nat)
deriving DecidableEq

/-- One produced page image: output file name and byte size. -/
structure ImageFile where
  name : String
  size : Nat

/-- The page loop of `convertPdfToImages` over the listed page numbers: a
thrown error aborts the whole conversion, an unavailable context, a null
blob and a zero-byte blob skip the page, a non-empty blob appends a
`page-N.png` file. -/
def convertPages (env : Nat → PageOutcome) : List Nat → Except JsErr (List ImageFile)
  | [] => .ok []
  | n :: rest =>
    match env n with
    | .throwErr e => .error e
    | .noContext => convertPages env rest
    | .blobNone => convertPages env rest
    | .blob 0 => convertPages env rest
    | .blob (k + 1) =>
      match convertPages env rest with
      | .error e => .error e
      | .ok imgs => .ok (⟨"page-" ++ toString n ++ ".png", k + 1⟩ :: imgs)

/-- Message surfaced for a password-classified conversion failure. -/
def invalidPasswordMsg : String :=
  "Invalid password. Please check your password and try again."

/-- The catch-block of `convertPdfToImages`: a thrown error whose name is
PasswordException or whose message contains the substring password (or
Incorrect password) surfaces as the invalid-password message; everything
else is wrapped as a generic processing failure. -/
def classifyPdfError (e : JsErr) : String :=
  if e.name == "PasswordException" || hasSub e.message "password"
      || hasSub e.message "Incorrect password" then
    invalidPasswordMsg
  else
    "Failed to process PDF: " ++ (if e.message == "" then "Unknown error" else e.message)

/-- Model of `convertPdfToImages`: open the document with the password
(`openRes` is the library outcome: an error or the page count), render at
most the first 10 pages through the page loop, fail when no page
rendered, and classify every thrown error in the catch-block. -/
def convertPdfToImages (openRes : Except JsErr Nat) (env : Nat → PageOutcome) :
    Except String (List ImageFile) :=
  match openRes with
  | .error e => .error (classifyPdfError e)
  | .ok numPages =>
    let maxPages := min numPages 10
    match convertPages env (List.range' 1 maxPages) with
    | .error e => .error (classifyPdfError e)
    | .ok imageFiles =>
      if imageFiles.length = 0 then
        .error (classifyPdfError ⟨"Error", "Failed to convert PDF pages to images", ""⟩)
      else .ok imageFiles

/-- Specification-side shape of a password-classified conversion error,
as the implicit claim states it: the PasswordException name, or a message
containing password, or a message containing Incorrect password. -/
def pwShaped (e : JsErr) : Prop :=
  e.name = "PasswordException" ∨
  containsSub e.message.data "password".data ∨
  containsSub e.message.data "Incorrect password".data

/-! ## Helper lemmas on the text primitives -/

theorem startsWith_append_self (p r : List Char) : startsWith (p ++ r) p = true := by
  induction p with
  | nil => cases r <;> rfl
  | cons c t ih => simp [startsWith, ih]

theorem startsWith_iff (cs pat : List Char) :
    startsWith cs pat = true ↔ ∃ r, cs = pat ++ r := by
  induction pat generalizing cs with
  | nil =>
    constructor
    · intro _; exact ⟨cs, rfl⟩
    · intro _; cases cs <;> rfl
  | cons p ps ih =>
    cases cs with
    | nil =>
      simp only [startsWith]
      constructor
      · intro h; exact absurd h (by simp)
      · rintro ⟨r, hr⟩; exact absurd hr (by simp)
    | cons c t =>
      simp only [startsWith, Bool.and_eq_true, beq_iff_eq, ih]
      constructor
      · rintro ⟨rfl, r, rfl⟩; exact ⟨r, rfl⟩
      · rintro ⟨r, hr⟩
        rw [List.cons_append] at hr
        obtain ⟨rfl, rfl⟩ := List.cons.inj hr
        exact ⟨rfl, r, rfl⟩

theorem hasSubL_iff (cs pat : List Char) :
    hasSubL cs pat = true ↔ containsSub cs pat := by
  induction cs with
  | nil =>
    simp only [hasSubL, containsSub, startsWith_iff]
    constructor
    · rintro ⟨r, hr⟩; exact ⟨[], r, hr⟩
    · rintro ⟨l, r, hr⟩
      refine ⟨r, ?_⟩
      have hl : l = [] := by
        cases l with
        | nil => rfl
        | cons a t => simp at hr
      subst hl; simpa using hr
  | cons c t ih =>
    simp only [hasSubL, Bool.or_eq_true, startsWith_iff, ih, containsSub]
    constructor
    · rintro (⟨r, hr⟩ | ⟨l, r, hr⟩)
      · exact ⟨[], r, by simpa using hr⟩
      · exact ⟨c :: l, r, by simp [hr]⟩
    · rintro ⟨l, r, hr⟩
      cases l with
      | nil => exact Or.inl ⟨r, by simpa using hr⟩
      | cons a l' =>
        rw [List.cons_append, List.cons_append] at hr
        obtain ⟨rfl, hr'⟩ := List.cons.inj hr
        exact Or.inr ⟨l', r, by simpa using hr'⟩

theorem containsSub_of_split (cs a pat b : List Char)
    (h : containsSub cs (a ++ pat ++ b)) : containsSub cs pat := by
  obtain ⟨l, r, hr⟩ := h
  exact ⟨l ++ a, b ++ r, by simp [hr, List.append_assoc]⟩

theorem hasSubL_of_split (cs whole a pat b : List Char)
    (hsplit : whole = a ++ pat ++ b)
    (h : hasSubL cs whole = true) : hasSubL cs pat = true := by
  rw [hasSubL_iff] at h ⊢
  exact containsSub_of_split cs a pat b (hsplit ▸ h)

theorem dropWhile_append_of_eq (p : Char → Bool) (l₁ l₂ : List Char)
    (h : l₁.dropWhile p = l₁) (hne : l₁ ≠ []) :
    (l₁ ++ l₂).dropWhile p = l₁ ++ l₂ := by
  rw [List.dropWhile_append]
  have hemp : (l₁.dropWhile p).isEmpty = false := by
    rw [h]; cases l₁ with
    | nil => exact absurd rfl hne
    | cons a t => rfl
  rw [hemp]
  simp [h]

theorem endsWith_append_self (x pat : List Char) : endsWith (x ++ pat) pat = true := by
  unfold endsWith
  rw [List.reverse_append]
  exact startsWith_append_self pat.reverse x.reverse

theorem trimWs_fenced (s : List Char) :
    trimWs ("```json\n".data ++ s ++ "```".data) = "```json\n".data ++ s ++ "```".data := by
  unfold trimWs
  rw [List.append_assoc, dropWhile_append_of_eq _ _ _ (by decide) (by decide)]
  rw [List.reverse_append, List.reverse_append, List.append_assoc]
  rw [dropWhile_append_of_eq _ _ _ (by decide) (by decide)]
  simp [List.reverse_append, List.append_assoc]

theorem fence_tail_strip (x : List Char) :
    (if endsWith (x ++ fenceClose) fenceClose = true then
        List.take ((x ++ fenceClose).length - fenceClose.length) (x ++ fenceClose)
      else x ++ fenceClose) = x := by
  rw [endsWith_append_self x fenceClose, if_pos rfl]
  have hlen : (x ++ fenceClose).length - fenceClose.length = x.length := by simp [fenceClose]
  rw [hlen, List.take_left]

theorem cleanFence_fenced (c : Char) (s' : List Char) (hc : isWsChar c = false) :
    cleanFence ("```json\n".data ++ (c :: s') ++ "```".data) = c :: s' := by
  have h0 : "```json\n".data = fenceOpen ++ ['\n'] := by decide
  have hshape : "```json\n".data ++ (c :: s') ++ "```".data
      = fenceOpen ++ ('\n' :: c :: (s' ++ "```".data)) := by
    rw [h0]; simp [List.append_assoc]
  rw [hshape]
  unfold cleanFence
  rw [startsWith_append_self fenceOpen ('\n' :: c :: (s' ++ "```".data))]
  have hn : isWsChar '\n' = true := by decide
  simp only [if_true, List.drop_left, List.dropWhile_cons, hn, hc, if_false,
    Bool.false_eq_true, ite_false, ite_true]
  exact fence_tail_strip (c :: s')

/-! ## Helper lemmas on the analysis client -/

theorem attemptOutcome_throw (provider : Provider) (i : Nat) (m : String)
    (h : provider i = .throwErr m) : attemptOutcome provider i = .error m := by
  unfold attemptOutcome; rw [h]

theorem attemptOutcome_parse (provider : Provider) (i : Nat) (t : String) (j : Json)
    (h : provider i = .respond t) (hne : trimWs t.data ≠ [])
    (hp : jsonParse (cleanFence (trimWs t.data)) = some j) :
    attemptOutcome provider i = .ok j := by
  unfold attemptOutcome
  rw [h]
  simp only [if_neg hne, hp]

theorem analyzeLoop_ok (provider : Provider) (f a c : Nat) (s : List Nat)
    (l : Option String) (j : Json) (ha : a < 3)
    (h : attemptOutcome provider a = .ok j) :
    analyzeLoop provider (f + 1) a c s l = ⟨.ok j, c + 1, s⟩ := by
  simp only [analyzeLoop]
  rw [if_pos ha, h]

theorem analyzeLoop_retry (provider : Provider) (f a c : Nat) (s : List Nat)
    (l : Option String) (m : String) (ha : a < 3) (ha2 : a < 2)
    (h : attemptOutcome provider a = .error m) (hr : isRateLimited m = true) :
    analyzeLoop provider (f + 1) a c s l
      = analyzeLoop provider f (a + 1) (c + 1) (s ++ [1000 * 2 ^ a]) (some m) := by
  simp only [analyzeLoop]
  rw [if_pos ha, h]
  simp only [if_pos (And.intro hr ha2)]

theorem analyzeLoop_throw (provider : Provider) (f a c : Nat) (s : List Nat)
    (l : Option String) (m : String) (ha : a < 3)
    (h : attemptOutcome provider a = .error m)
    (hnr : ¬(isRateLimited m = true ∧ a < 2)) :
    analyzeLoop provider (f + 1) a c s l = ⟨.error m, c + 1, s⟩ := by
  simp only [analyzeLoop]
  rw [if_pos ha, h]
  simp only [if_neg hnr]

theorem getAiClient_ok (v w st : Option String) (k : String)
    (hkey : resolveApiKey v w st = some k) : getAiClient v w st = .ok () := by
  unfold getAiClient; rw [hkey]

theorem analyzeBody_valid (files : List GenFile) (provider : Provider)
    (h1 : files ≠ []) (h2 : files.any (fun f => f.size == 0) = false) :
    analyzeBody files provider = analyzeLoop provider 4 0 0 [] none := by
  unfold analyzeBody
  have hl : ¬(files.length = 0) := by
    simpa [List.length_eq_zero] using h1
  rw [if_neg hl]
  rw [if_neg (by simp [h2])]
  have h3 : ¬((files.map fileToGenerativePart).length = 0
      ∨ (files.map fileToGenerativePart).any (fun p => p.inlineData.isNone) = true) := by
    push_neg
    constructor
    · intro hcon
      rw [List.length_map, List.length_eq_zero] at hcon
      exact h1 hcon
    · simp [List.any_map, fileToGenerativePart, Function.comp]
  rw [if_neg h3]

theorem analyzeDocument_run (v w st : Option String) (k : String)
    (files : List GenFile) (provider : Provider)
    (hkey : resolveApiKey v w st = some k)
    (h1 : files ≠ []) (h2 : files.any (fun f => f.size == 0) = false) :
    analyzeDocument v w st files provider
      = (match (analyzeLoop provider 4 0 0 [] none).result with
         | .ok j => ⟨.ok j, (analyzeLoop provider 4 0 0 [] none).calls,
             (analyzeLoop provider 4 0 0 [] none).sleeps⟩
         | .error m => ⟨.error (mapError m), (analyzeLoop provider 4 0 0 [] none).calls,
             (analyzeLoop provider 4 0 0 [] none).sleeps⟩) := by
  unfold analyzeDocument
  rw [getAiClient_ok v w st k hkey, analyzeBody_valid files provider h1 h2]

theorem analyzeDocument_of_body (v w st : Option String) (k : String)
    (files : List GenFile) (provider : Provider) (o : AnalyzeOutcome)
    (hkey : resolveApiKey v w st = some k)
    (hb : analyzeBody files provider = o) :
    analyzeDocument v w st files provider
      = match o.result with
        | .ok j => ⟨.ok j, o.calls, o.sleeps⟩
        | .error m => ⟨.error (mapError m), o.calls, o.sleeps⟩ := by
  unfold analyzeDocument
  rw [getAiClient_ok v w st k hkey, hb]

theorem hasSub_missing_false (m : String) (hnk : hasSub m "API key" = false) :
    hasSub m "Missing API key" = false := by
  by_contra h
  have h' : hasSubL m.data "Missing API key".data = true := by
    unfold hasSub at h
    exact eq_true_of_ne_false h
  have h2 := hasSubL_of_split m.data "Missing API key".data "Missing ".data "API key".data []
    (by decide) h'
  unfold hasSub at hnk
  rw [h2] at hnk
  exact Bool.noConfusion hnk

theorem mapError_rate (m : String)
    (hq : (hasSubL (lowerL m) "quota".data || hasSubL (lowerL m) "rate".data
      || hasSub m "429") = true)
    (hnk : hasSub m "API key" = false) :
    mapError m = rateLimitedMsg := by
  unfold mapError
  rw [hnk, hasSub_missing_false m hnk, hq]
  rfl

/-! ## Helper lemmas on the PDF pipeline -/

theorem convertPages_all_blob (env : Nat → PageOutcome) (sz : Nat → Nat) (l : List Nat)
    (h : ∀ n ∈ l, env n = .blob (sz n) ∧ 0 < sz n) :
    convertPages env l
      = .ok (l.map (fun n => ⟨"page-" ++ toString n ++ ".png", sz n⟩)) := by
  induction l with
  | nil => rfl
  | cons n rest ih =>
    obtain ⟨hn, hpos⟩ := h n (by simp)
    have ih' := ih (fun m hm => h m (by simp [hm]))
    obtain ⟨k, hk⟩ : ∃ k, sz n = k + 1 := ⟨sz n - 1, by omega⟩
    have hn' : env n = .blob (k + 1) := by rw [hn, hk]
    unfold convertPages
    rw [hn', ih']
    simp [hk]

theorem convertPages_congr (env env' : Nat → PageOutcome) (l : List Nat)
    (h : ∀ n ∈ l, env' n = env n) : convertPages env' l = convertPages env l := by
  induction l with
  | nil => rfl
  | cons n rest ih =>
    have ih' := ih (fun m hm => h m (by simp [hm]))
    unfold convertPages
    rw [h n (by simp), ih']

theorem convertPdfToImages_ok_eq (numPages : Nat) (env : Nat → PageOutcome) :
    convertPdfToImages (.ok numPages) env
      = match convertPages env (List.range' 1 (min numPages 10)) with
        | .error e => .error (classifyPdfError e)
        | .ok imageFiles =>
          if imageFiles.length = 0 then
            .error (classifyPdfError ⟨"Error", "Failed to convert PDF pages to images", ""⟩)
          else .ok imageFiles := rfl

theorem convertPdfToImages_ok_pages (numPages : Nat) (env : Nat → PageOutcome)
    (imgs : List ImageFile)
    (h : convertPages env (List.range' 1 (min numPages 10)) = .ok imgs)
    (hne : ¬(imgs.length = 0)) :
    convertPdfToImages (.ok numPages) env = .ok imgs := by
  rw [convertPdfToImages_ok_eq, h]
  show (if imgs.length = 0 then _ else Except.ok imgs) = Except.ok imgs
  rw [if_neg hne]

theorem containsSub_convert (m whole a pat b : List Char) (hsplit : whole = a ++ pat ++ b)
    (h : containsSub m whole) : containsSub m pat :=
  containsSub_of_split m a pat b (hsplit ▸ h)

theorem classifyPdfError_pw (e : JsErr) (h : pwShaped e) :
    classifyPdfError e = invalidPasswordMsg := by
  unfold classifyPdfError
  rcases h with hn | hm | hm
  · rw [if_pos (by simp [hn])]
  · have : hasSub e.message "password" = true := by
      unfold hasSub; rw [hasSubL_iff]; exact hm
    rw [if_pos (by simp [this])]
  · have : hasSub e.message "Incorrect password" = true := by
      unfold hasSub; rw [hasSubL_iff]; exact hm
    rw [if_pos (by simp [this])]

theorem classifyPdfError_generic (e : JsErr) (h : ¬pwShaped e) :
    classifyPdfError e
      = "Failed to process PDF: " ++ (if e.message == "" then "Unknown error" else e.message) := by
  unfold classifyPdfError
  unfold pwShaped at h
  push_neg at h
  obtain ⟨hn, hm1, hm2⟩ := h
  have g1 : (e.name == "PasswordException") = false := by simp [hn]
  have g2 : hasSub e.message "password" = false := by
    unfold hasSub
    rw [Bool.eq_false_iff]
    intro hcon
    exact hm1 ((hasSubL_iff _ _).mp hcon)
  have g3 : hasSub e.message "Incorrect password" = false := by
    unfold hasSub
    rw [Bool.eq_false_iff]
    intro hcon
    exact hm2 ((hasSubL_iff _ _).mp hcon)
  rw [g1, g2, g3]
  rfl

theorem failed_ne_invalid (m : String) :
    "Failed to process PDF: " ++ m ≠ invalidPasswordMsg := by
  intro h
  have h2 : ("Failed to process PDF: " ++ m).data = invalidPasswordMsg.data :=
    congrArg String.data h
  have h3 : ("Failed to process PDF: " ++ m).data
      = "Failed to process PDF: ".data ++ m.data := by
    cases m; rfl
  rw [h3] at h2
  rw [show "Failed to process PDF: ".data
      = 'F' :: "ailed to process PDF: ".data from rfl] at h2
  have h4 := congrArg List.head? h2
  rw [show ('F' :: "ailed to process PDF: ".data ++ m.data).head? = some 'F' from rfl] at h4
  rw [show invalidPasswordMsg.data.head? = some 'I' from rfl] at h4
  exact absurd (Option.some.inj h4) (by decide)

/-! ## Claim theorems -/

/-- C1: when the provider call fails with a rate-limit-shaped error on the
first two attempts and the third attempt succeeds with a parsed result,
`analyzeDocument` returns that parsed result, makes exactly 3 provider
calls, and sleeps exactly twice between attempts, 1000 ms then 2000 ms. -/
theorem analyzeDocument_retries_then_succeeds
    (v w st : Option String) (k : String) (files : List GenFile) (provider : Provider)
    (m0 m1 : String) (j : Json)
    (hkey : resolveApiKey v w st = some k)
    (h1 : files ≠ []) (h2 : files.any (fun f => f.size == 0) = false)
    (hp0 : provider 0 = .throwErr m0) (hr0 : isRateLimited m0 = true)
    (hp1 : provider 1 = .throwErr m1) (hr1 : isRateLimited m1 = true)
    (hp2 : attemptOutcome provider 2 = .ok j) :
    analyzeDocument v w st files provider = ⟨.ok j, 3, [1000, 2000]⟩ := by
  rw [analyzeDocument_run v w st k files provider hkey h1 h2]
  have e0 : analyzeLoop provider 4 0 0 [] none
      = analyzeLoop provider 3 1 1 [1000] (some m0) :=
    analyzeLoop_retry provider 3 0 0 [] none m0 (by omega) (by omega)
      (attemptOutcome_throw provider 0 m0 hp0) hr0
  have e1 : analyzeLoop provider 3 1 1 [1000] (some m0)
      = analyzeLoop provider 2 2 2 [1000, 2000] (some m1) :=
    analyzeLoop_retry provider 2 1 1 [1000] (some m0) m1 (by omega) (by omega)
      (attemptOutcome_throw provider 1 m1 hp1) hr1
  have e2 : analyzeLoop provider 2 2 2 [1000, 2000] (some m1)
      = ⟨.ok j, 3, [1000, 2000]⟩ :=
    analyzeLoop_ok provider 1 2 2 [1000, 2000] (some m1) j (by omega) hp2
  rw [e0, e1, e2]

/-- C1 witness: a concrete run with two rate-limited failures and a
successful third response. -/
theorem analyzeDocument_retries_then_succeeds_witness :
    analyzeDocument (some "k") none none
      [⟨"contract.pdf", 4, "application/pdf", "JVBERi0"⟩]
      (fun i => if i = 0 then .throwErr "429 RESOURCE_EXHAUSTED: quota exceeded"
        else if i = 1 then .throwErr "rate limit exceeded"
        else .respond "\x7b\"summary\":\"ok\",\"pros\":[],\"cons\":[],\"potentialLoopholes\":[],\"potentialChallenges\":[]\x7d")
      = ⟨.ok (.obj [("summary", .str "ok"), ("pros", .arr []), ("cons", .arr []),
          ("potentialLoopholes", .arr []), ("potentialChallenges", .arr [])]),
        3, [1000, 2000]⟩ :=
  analyzeDocument_retries_then_succeeds (some "k") none none "k"
    [⟨"contract.pdf", 4, "application/pdf", "JVBERi0"⟩]
    (fun i => if i = 0 then .throwErr "429 RESOURCE_EXHAUSTED: quota exceeded"
      else if i = 1 then .throwErr "rate limit exceeded"
      else .respond "\x7b\"summary\":\"ok\",\"pros\":[],\"cons\":[],\"potentialLoopholes\":[],\"potentialChallenges\":[]\x7d")
    "429 RESOURCE_EXHAUSTED: quota exceeded" "rate limit exceeded"
    (.obj [("summary", .str "ok"), ("pros", .arr []), ("cons", .arr []),
      ("potentialLoopholes", .arr []), ("potentialChallenges", .arr [])])
    rfl (by simp) rfl rfl rfl rfl rfl rfl

/-- C2 counterexample: a provider failing all three attempts with the
message resource exhausted is rate-limit-shaped for the retry loop, yet
the surfaced error is the generic analysis-failure message, not the
RateLimited quota message, because the catch-block classifier does not
test for resource exhausted. -/
theorem analyzeDocument_resource_exhausted_counterexample :
    isRateLimited "resource exhausted" = true
    ∧ analyzeDocument (some "k") none none [⟨"a.pdf", 4, "application/pdf", "QQ"⟩]
        (fun _ => .throwErr "resource exhausted")
      = ⟨.error analysisFailedMsg, 3, [1000, 2000]⟩
    ∧ analysisFailedMsg ≠ rateLimitedMsg :=
  ⟨rfl, rfl, by decide⟩

/-- C2 (amended): `analyzeDocument` retries only rate-limit-shaped
failures.  When all three attempts fail rate-limited it makes no 4th
provider call and rethrows the last failure through the catch-block
classifier, which surfaces the RateLimited quota message whenever the
final message matches quota, rate or 429 and does not contain API key (a
final message matching only resource exhausted instead surfaces as the
generic analysis failure).  A first failure that is not rate-limit-shaped
propagates immediately, after one single call and with no sleeps. -/
theorem analyzeDocument_retry_only_rate_limited
    (v w st : Option String) (k : String) (files : List GenFile)
    (pa pb : Provider) (m0 m1 m2 mb : String)
    (hkey : resolveApiKey v w st = some k)
    (h1 : files ≠ []) (h2 : files.any (fun f => f.size == 0) = false)
    (ha0 : pa 0 = .throwErr m0) (hr0 : isRateLimited m0 = true)
    (ha1 : pa 1 = .throwErr m1) (hr1 : isRateLimited m1 = true)
    (ha2 : pa 2 = .throwErr m2) (_hr2 : isRateLimited m2 = true)
    (hq : (hasSubL (lowerL m2) "quota".data || hasSubL (lowerL m2) "rate".data
      || hasSub m2 "429") = true)
    (hnk : hasSub m2 "API key" = false)
    (hb0 : pb 0 = .throwErr mb) (hrb : isRateLimited mb = false) :
    analyzeDocument v w st files pa = ⟨.error rateLimitedMsg, 3, [1000, 2000]⟩
    ∧ analyzeDocument v w st files pb = ⟨.error (mapError mb), 1, []⟩ := by
  constructor
  · rw [analyzeDocument_run v w st k files pa hkey h1 h2]
    have e0 : analyzeLoop pa 4 0 0 [] none
        = analyzeLoop pa 3 1 1 [1000] (some m0) :=
      analyzeLoop_retry pa 3 0 0 [] none m0 (by omega) (by omega)
        (attemptOutcome_throw pa 0 m0 ha0) hr0
    have e1 : analyzeLoop pa 3 1 1 [1000] (some m0)
        = analyzeLoop pa 2 2 2 [1000, 2000] (some m1) :=
      analyzeLoop_retry pa 2 1 1 [1000] (some m0) m1 (by omega) (by omega)
        (attemptOutcome_throw pa 1 m1 ha1) hr1
    have e2 : analyzeLoop pa 2 2 2 [1000, 2000] (some m1)
        = ⟨.error m2, 3, [1000, 2000]⟩ :=
      analyzeLoop_throw pa 1 2 2 [1000, 2000] (some m1) m2 (by omega)
        (attemptOutcome_throw pa 2 m2 ha2)
        (fun hcon => absurd hcon.2 (by omega))
    rw [e0, e1, e2]
    show (⟨.error (mapError m2), 3, [1000, 2000]⟩ : AnalyzeOutcome) = _
    rw [mapError_rate m2 hq hnk]
  · rw [analyzeDocument_run v w st k files pb hkey h1 h2]
    have e0 : analyzeLoop pb 4 0 0 [] none = ⟨.error mb, 1, []⟩ :=
      analyzeLoop_throw pb 3 0 0 [] none mb (by omega)
        (attemptOutcome_throw pb 0 mb hb0)
        (fun hcon => absurd hcon.1 (by simp [hrb]))
    rw [e0]

/-- C2 witness: concrete rate-limited exhaustion surfacing the quota
message, and a concrete non-rate-limited first failure not retried. -/
theorem analyzeDocument_retry_only_rate_limited_witness :
    analyzeDocument (some "k") none none [⟨"a.pdf", 4, "application/pdf", "QQ"⟩]
        (fun _ => .throwErr "429")
      = ⟨.error rateLimitedMsg, 3, [1000, 2000]⟩
    ∧ analyzeDocument (some "k") none none [⟨"a.pdf", 4, "application/pdf", "QQ"⟩]
        (fun _ => .throwErr "boom")
      = ⟨.error (mapError "boom"), 1, []⟩ :=
  analyzeDocument_retry_only_rate_limited (some "k") none none "k"
    [⟨"a.pdf", 4, "application/pdf", "QQ"⟩]
    (fun _ => .throwErr "429") (fun _ => .throwErr "boom")
    "429" "429" "429" "boom"
    rfl (by simp) rfl rfl rfl rfl rfl rfl rfl rfl rfl rfl rfl

/-- C3: for a document of N pages opened with the correct password whose
pages all render to non-empty blobs, `convertPdfToImages` returns exactly
min(N, 10) image files, in ascending page order starting at page 1, each
of non-zero byte length; and the outcome never depends on the behaviour
of pages beyond the first 10, so pages past the cap are never rendered. -/
theorem convertPdfToImages_caps_at_ten
    (numPages : Nat) (env : Nat → PageOutcome) (sz : Nat → Nat)
    (hN : 1 ≤ numPages)
    (hrender : ∀ n ∈ List.range' 1 (min numPages 10), env n = .blob (sz n) ∧ 0 < sz n) :
    convertPdfToImages (.ok numPages) env
      = .ok ((List.range' 1 (min numPages 10)).map
          (fun n => ⟨"page-" ++ toString n ++ ".png", sz n⟩))
    ∧ ((List.range' 1 (min numPages 10)).map
        (fun n => (⟨"page-" ++ toString n ++ ".png", sz n⟩ : ImageFile))).length
        = min numPages 10
    ∧ (∀ f ∈ (List.range' 1 (min numPages 10)).map
        (fun n => (⟨"page-" ++ toString n ++ ".png", sz n⟩ : ImageFile)), 0 < f.size)
    ∧ (∀ env' : Nat → PageOutcome, (∀ n, 1 ≤ n → n ≤ 10 → env' n = env n) →
        convertPdfToImages (.ok numPages) env' = convertPdfToImages (.ok numPages) env) := by
  have hmem : ∀ n ∈ List.range' 1 (min numPages 10), 1 ≤ n ∧ n ≤ 10 := by
    intro n hn
    rw [List.mem_range'] at hn
    obtain ⟨i, hi, rfl⟩ := hn
    omega
  refine ⟨?_, ?_, ?_, ?_⟩
  · refine convertPdfToImages_ok_pages numPages env _
      (convertPages_all_blob env sz _ hrender) ?_
    simp only [List.length_map, List.length_range']
    omega
  · simp only [List.length_map, List.length_range']
  · intro f hf
    rw [List.mem_map] at hf
    obtain ⟨n, hn, rfl⟩ := hf
    exact (hrender n hn).2
  · intro env' hagree
    rw [convertPdfToImages_ok_eq, convertPdfToImages_ok_eq]
    rw [convertPages_congr env env' (List.range' 1 (min numPages 10))
      (fun n hn => hagree n (hmem n hn).1 (hmem n hn).2)]

/-- C3 witness: a 13-page document renders exactly the first 10 pages. -/
theorem convertPdfToImages_caps_at_ten_witness :
    convertPdfToImages (.ok 13) (fun n => .blob (n + 1))
      = .ok ((List.range' 1 (min 13 10)).map
          (fun n => ⟨"page-" ++ toString n ++ ".png", n + 1⟩)) :=
  (convertPdfToImages_caps_at_ten 13 (fun n => .blob (n + 1)) (fun n => n + 1)
    (by omega) (by decide)).1

/-- C4: when opening the document fails with the library
PasswordException (the wrong-password outcome), `convertPdfToImages`
fails with the invalid-password condition, that condition differs from
every generic processing-failure message, and no partial image list is
returned. -/
theorem convertPdfToImages_wrong_password
    (e : JsErr) (env : Nat → PageOutcome) (he : e.name = "PasswordException") :
    convertPdfToImages (.error e) env = .error invalidPasswordMsg
    ∧ (∀ imgs : List ImageFile, convertPdfToImages (.error e) env ≠ .ok imgs)
    ∧ (∀ m : String, invalidPasswordMsg ≠ "Failed to process PDF: " ++ m) := by
  have h1 : convertPdfToImages (.error e) env = .error invalidPasswordMsg := by
    show Except.error (classifyPdfError e) = _
    rw [classifyPdfError_pw e (Or.inl he)]
  refine ⟨h1, ?_, ?_⟩
  · intro imgs hcon
    rw [h1] at hcon
    exact Except.noConfusion hcon
  · intro m
    exact (failed_ne_invalid m).symm

/-- C4 witness: a concrete wrong-password open failure. -/
theorem convertPdfToImages_wrong_password_witness :
    convertPdfToImages (.error ⟨"PasswordException", "No password given", ""⟩)
      (fun _ => .blob 1) = .error invalidPasswordMsg :=
  (convertPdfToImages_wrong_password ⟨"PasswordException", "No password given", ""⟩
    (fun _ => .blob 1) rfl).1

/-- C5: `isPasswordProtected` is a total boolean classification (the
source catches every failure), returning true exactly when the document
open or the page-1 fetch fails with a password-or-encryption classified
error, and false when page 1 loads, when the failure is unclassified, and
for any outer failure. -/
theorem isPasswordProtected_iff_classified (o : ProbeOutcome) :
    isPasswordProtected o = true ↔ pwClassified o := by
  cases o with
  | pageOk => simp [isPasswordProtected, pwClassified]
  | outerErr => simp [isPasswordProtected, pwClassified]
  | pageErr e =>
    simp only [isPasswordProtected, pwClassified, Bool.or_eq_true, beq_iff_eq, hasSubL_iff]
    have c1 : containsSub (lowerL e.message) "needs password".data
        → containsSub (lowerL e.message) "password".data :=
      fun h => containsSub_convert _ _ "needs ".data "password".data [] (by decide) h
    have c2 : containsSub (lowerL e.message) "password required".data
        → containsSub (lowerL e.message) "password".data :=
      fun h => containsSub_convert _ _ [] "password".data " required".data (by decide) h
    tauto
  | loadErr e =>
    simp only [isPasswordProtected, pwClassified, Bool.or_eq_true, beq_iff_eq, hasSubL_iff]
    have c1 : containsSub (lowerL e.message) "needs password".data
        → containsSub (lowerL e.message) "password".data :=
      fun h => containsSub_convert _ _ "needs ".data "password".data [] (by decide) h
    have c2 : containsSub (lowerL e.message) "password required".data
        → containsSub (lowerL e.message) "password".data :=
      fun h => containsSub_convert _ _ [] "password".data " required".data (by decide) h
    have c3 : containsSub (lowerL e.message) "incorrect password".data
        → containsSub (lowerL e.message) "password".data :=
      fun h => containsSub_convert _ _ "incorrect ".data "password".data [] (by decide) h
    tauto

/-- C10: the conversion catch-block classifies purely by name and
substring: any thrown open error whose name is PasswordException or whose
message contains the substring password (or Incorrect password) surfaces
as the invalid-password condition regardless of its real cause, and every
other thrown error is wrapped as the generic processing failure. -/
theorem convertPdfToImages_substring_classification (e : JsErr) (env : Nat → PageOutcome) :
    (pwShaped e → classifyPdfError e = invalidPasswordMsg
      ∧ convertPdfToImages (.error e) env = .error invalidPasswordMsg)
    ∧ (¬pwShaped e → classifyPdfError e
        = "Failed to process PDF: " ++ (if e.message == "" then "Unknown error" else e.message)
      ∧ convertPdfToImages (.error e) env
        = .error ("Failed to process PDF: "
            ++ (if e.message == "" then "Unknown error" else e.message))) := by
  constructor
  · intro h
    have hc := classifyPdfError_pw e h
    exact ⟨hc, by show Except.error (classifyPdfError e) = _; rw [hc]⟩
  · intro h
    have hc := classifyPdfError_generic e h
    exact ⟨hc, by show Except.error (classifyPdfError e) = _; rw [hc]⟩

/-- C10 witness: an error that is not a wrong-password condition but
whose message contains the substring password is still classified as the
invalid-password condition. -/
theorem convertPdfToImages_substring_classification_witness :
    classifyPdfError ⟨"TypeError", "fetch failed: password manager locked", ""⟩
      = invalidPasswordMsg :=
  ((convertPdfToImages_substring_classification
      ⟨"TypeError", "fetch failed: password manager locked", ""⟩ (fun _ => .blob 1)).1
    (Or.inr (Or.inl ⟨"fetch failed: ".data, " manager locked".data, by decide⟩))).1

/-- C6 counterexample: a provider response that parses as JSON but lacks
the required summary field is returned by `analyzeDocument` as a success
carrying the partial object, not surfaced as the analysis-failure
condition. -/
theorem analyzeDocument_missing_summary_counterexample :
    (analyzeDocument (some "k") none none [⟨"d.pdf", 3, "application/pdf", "QQ"⟩]
        (fun _ => .respond "\x7b\"pros\": []\x7d")).result
      = .ok (.obj [("pros", .arr [])])
    ∧ validAnalysisResult (.obj [("pros", .arr [])]) = false :=
  ⟨rfl, rfl⟩

/-- C6 (amended): `analyzeDocument` performs no client-side validation of
the parsed response against the AnalysisResult shape: any response whose
trimmed, fence-stripped text parses as JSON is returned exactly as
parsed, whether or not the required fields are present, shape enforcement
being delegated to the provider-side response schema; only an empty
response text, a JSON parse failure or a provider error reach the mapped
failure path. -/
theorem analyzeDocument_no_shape_validation
    (v w st : Option String) (k : String) (files : List GenFile) (provider : Provider)
    (t : String) (j : Json)
    (hkey : resolveApiKey v w st = some k)
    (h1 : files ≠ []) (h2 : files.any (fun f => f.size == 0) = false)
    (hp : provider 0 = .respond t) (hne : trimWs t.data ≠ [])
    (hj : jsonParse (cleanFence (trimWs t.data)) = some j) :
    analyzeDocument v w st files provider = ⟨.ok j, 1, []⟩ := by
  rw [analyzeDocument_run v w st k files provider hkey h1 h2]
  have e0 : analyzeLoop provider 4 0 0 [] none = ⟨.ok j, 1, []⟩ :=
    analyzeLoop_ok provider 3 0 0 [] none j (by omega)
      (attemptOutcome_parse provider 0 t j hp hne hj)
  rw [e0]

/-- C6 witness: a concrete JSON response missing every required field is
returned as parsed. -/
theorem analyzeDocument_no_shape_validation_witness :
    analyzeDocument (some "k") none none [⟨"n.pdf", 5, "application/pdf", "QQ"⟩]
      (fun _ => .respond "\x7b\"cons\": [\"c\"]\x7d")
      = ⟨.ok (.obj [("cons", .arr [.str "c"])]), 1, []⟩ :=
  analyzeDocument_no_shape_validation (some "k") none none "k"
    [⟨"n.pdf", 5, "application/pdf", "QQ"⟩]
    (fun _ => .respond "\x7b\"cons\": [\"c\"]\x7d")
    "\x7b\"cons\": [\"c\"]\x7d" (.obj [("cons", .arr [.str "c"])])
    rfl (by simp) rfl rfl (by decide) rfl

/-- C7: with a resolvable credential, an empty input list and likewise a
list containing a zero-byte file fail validation inside the try-block
before any provider call: the provider is called zero times and the
surfaced error is the mapped generic analysis-failure message. -/
theorem analyzeDocument_validates_before_network
    (v w st : Option String) (k : String) (files : List GenFile) (provider : Provider)
    (hkey : resolveApiKey v w st = some k)
    (hz : files.any (fun f => f.size == 0) = true) :
    analyzeDocument v w st [] provider = ⟨.error analysisFailedMsg, 0, []⟩
    ∧ analyzeDocument v w st files provider = ⟨.error analysisFailedMsg, 0, []⟩ := by
  constructor
  · rw [analyzeDocument_of_body v w st k [] provider
      ⟨.error "No files provided for analysis", 0, []⟩ hkey rfl]
    rfl
  · have hlen : ¬(files.length = 0) := by
      cases files with
      | nil => exact absurd hz (by simp)
      | cons f rest => simp
    have hb : analyzeBody files provider
        = ⟨.error "One or more files are empty or invalid", 0, []⟩ := by
      unfold analyzeBody
      rw [if_neg hlen]
      simp only [hz, if_true]
    rw [analyzeDocument_of_body v w st k files provider
      ⟨.error "One or more files are empty or invalid", 0, []⟩ hkey hb]
    rfl

/-- C7 witness: a concrete empty list and a concrete zero-byte file. -/
theorem analyzeDocument_validates_before_network_witness :
    analyzeDocument (some "k") none none [] (fun _ => .throwErr "never called")
      = ⟨.error analysisFailedMsg, 0, []⟩
    ∧ analyzeDocument (some "k") none none [⟨"empty.png", 0, "image/png", ""⟩]
        (fun _ => .throwErr "never called")
      = ⟨.error analysisFailedMsg, 0, []⟩ :=
  analyzeDocument_validates_before_network (some "k") none none "k"
    [⟨"empty.png", 0, "image/png", ""⟩] (fun _ => .throwErr "never called")
    rfl rfl

/-- C8: a successful provider response whose text is the JSON of a valid
AnalysisResult wrapped in markdown code fences has the fences stripped
and the inner JSON returned as the parsed result. -/
theorem analyzeDocument_strips_fences
    (v w st : Option String) (k : String) (files : List GenFile) (provider : Provider)
    (t : String) (c : Char) (s' : List Char) (j : Json)
    (hkey : resolveApiKey v w st = some k)
    (h1 : files ≠ []) (h2 : files.any (fun f => f.size == 0) = false)
    (hp : provider 0 = .respond t)
    (ht : t.data = "```json\n".data ++ (c :: s') ++ "```".data)
    (hc : isWsChar c = false)
    (hj : jsonParse (c :: s') = some j)
    (_hv : validAnalysisResult j = true) :
    analyzeDocument v w st files provider = ⟨.ok j, 1, []⟩ := by
  have htrim : trimWs t.data = t.data := by
    rw [ht]; exact trimWs_fenced (c :: s')
  have hcf : cleanFence (trimWs t.data) = c :: s' := by
    rw [htrim, ht]; exact cleanFence_fenced c s' hc
  have hne : trimWs t.data ≠ [] := by
    rw [htrim, ht]; simp
  rw [analyzeDocument_run v w st k files provider hkey h1 h2]
  have e0 : analyzeLoop provider 4 0 0 [] none = ⟨.ok j, 1, []⟩ :=
    analyzeLoop_ok provider 3 0 0 [] none j (by omega)
      (attemptOutcome_parse provider 0 t j hp hne (by rw [hcf]; exact hj))
  rw [e0]

/-- C8 witness: a concrete fenced valid response. -/
theorem analyzeDocument_strips_fences_witness :
    analyzeDocument (some "k") none none [⟨"contract.pdf", 4, "application/pdf", "QQ"⟩]
      (fun _ => .respond "```json\n\x7b\"summary\":\"s\",\"pros\":[],\"cons\":[],\"potentialLoopholes\":[],\"potentialChallenges\":[]\x7d\n```")
      = ⟨.ok (.obj [("summary", .str "s"), ("pros", .arr []), ("cons", .arr []),
          ("potentialLoopholes", .arr []), ("potentialChallenges", .arr [])]), 1, []⟩ :=
  analyzeDocument_strips_fences (some "k") none none "k"
    [⟨"contract.pdf", 4, "application/pdf", "QQ"⟩]
    (fun _ => .respond "```json\n\x7b\"summary\":\"s\",\"pros\":[],\"cons\":[],\"potentialLoopholes\":[],\"potentialChallenges\":[]\x7d\n```")
    "```json\n\x7b\"summary\":\"s\",\"pros\":[],\"cons\":[],\"potentialLoopholes\":[],\"potentialChallenges\":[]\x7d\n```"
    '\x7b'
    "\"summary\":\"s\",\"pros\":[],\"cons\":[],\"potentialLoopholes\":[],\"potentialChallenges\":[]\x7d\n".data
    (.obj [("summary", .str "s"), ("pros", .arr []), ("cons", .arr []),
      ("potentialLoopholes", .arr []), ("potentialChallenges", .arr [])])
    rfl (by simp) rfl rfl rfl rfl rfl rfl

/-- C9: when none of the three credential sources resolves to a non-empty
string, `analyzeDocument` fails deterministically before any provider
call with an error carrying exactly the generic SERVICE_UNAVAILABLE
marker and nothing else. -/
theorem analyzeDocument_service_unavailable
    (v w st : Option String) (files : List GenFile) (provider : Provider)
    (hv : noCred v) (hw : noCred w) (hs : noCred st) :
    resolveApiKey v w st = none
    ∧ analyzeDocument v w st files provider = ⟨.error serviceUnavailableMsg, 0, []⟩
    ∧ serviceUnavailableMsg = "SERVICE_UNAVAILABLE" := by
  have e1 : nonEmptyKey v = none := by
    cases v with
    | none => rfl
    | some a =>
        show (if jsTrim a = "" then none else some (jsTrim a)) = none
        rw [if_pos (hv a rfl)]
  have e2 : nonEmptyKey w = none := by
    cases w with
    | none => rfl
    | some a =>
        show (if jsTrim a = "" then none else some (jsTrim a)) = none
        rw [if_pos (hw a rfl)]
  have e3 : nonEmptyKey st = none := by
    cases st with
    | none => rfl
    | some a =>
        show (if jsTrim a = "" then none else some (jsTrim a)) = none
        rw [if_pos (hs a rfl)]
  have hr : resolveApiKey v w st = none := by
    unfold resolveApiKey
    rw [e1, e2, e3]
  refine ⟨hr, ?_, rfl⟩
  unfold analyzeDocument getAiClient
  rw [hr]

/-- C9 witness: a whitespace-only key, an absent key and an empty key. -/
theorem analyzeDocument_service_unavailable_witness :
    resolveApiKey (some "   ") none (some "") = none
    ∧ analyzeDocument (some "   ") none (some "") [] (fun _ => .throwErr "x")
      = ⟨.error serviceUnavailableMsg, 0, []⟩
    ∧ serviceUnavailableMsg = "SERVICE_UNAVAILABLE" :=
  analyzeDocument_service_unavailable (some "   ") none (some "") []
    (fun _ => .throwErr "x")
    (fun a ha => by cases Option.some.inj ha; rfl)
    (fun a ha => Option.noConfusion ha)
    (fun a ha => by cases Option.some.inj ha; rfl)

end VisionX
